import Mathlib

/-!
Verification development for the device registry and interaction-profile
binding-translation engine of the xrizer compatibility layer.

Rust sources embedded here:
  - src/input/profiles.rs, src/input/profiles/knuckles.rs,
    src/input/profiles/oculus_touch.rs, src/input/profiles/vive_controller.rs
  - src/input/devices.rs, src/input/devices/generic_tracker.rs
  - src/system.rs

Strings are modelled as Lean `String` (the paths involved are ASCII, so
char-level operations coincide with Rust's byte-level ones).
-/

namespace Xrizer

/-! ## String primitives

`containsSub pat s` embeds Rust's `str::contains` (substring test), and
`replaceAll pat dst s` embeds Rust's `str::replace` (replace every
non-overlapping occurrence, scanning left to right).  Both work on the
underlying character lists.  `replaceAll` uses an explicit fuel argument
(the length of the subject string suffices) so that it is structurally
recursive and reduces inside `decide` and `rfl` proofs. -/

def containsSub (pat : List Char) : List Char → Bool
  | [] => pat.isPrefixOf ([] : List Char)
  | c :: rest => pat.isPrefixOf (c :: rest) || containsSub pat rest

def replaceAux (pat dst : List Char) : Nat → List Char → List Char
  | 0, s => s
  | _ + 1, [] => []
  | fuel + 1, c :: rest =>
    if pat ≠ [] ∧ pat.isPrefixOf (c :: rest) then
      dst ++ replaceAux pat dst fuel ((c :: rest).drop pat.length)
    else
      c :: replaceAux pat dst fuel rest

def replaceAll (pat dst s : List Char) : List Char :=
  replaceAux pat dst s.length s

def strContains (s pat : String) : Bool :=
  containsSub pat.data s.data

def strReplace (s pat dst : String) : String :=
  ⟨replaceAll pat.data dst.data s.data⟩

/-- Embeds Rust's `str::to_lowercase` (ASCII-only inputs here). -/
def strToLower (s : String) : String :=
  ⟨s.data.map Char.toLower⟩

/-! ## Path translation rules

Embeds `PathTranslation { from, to, stop }` from src/input/profiles.rs
(`from`/`to` are Lean keywords, so the fields are named `src`/`dst`). -/

structure PathTranslation where
  src : String
  dst : String
  stop : Bool
deriving DecidableEq, Repr

/-- Whether a rule applies to a path: Rust tests `path.contains(from)`. -/
def ruleMatches (r : PathTranslation) (p : String) : Bool :=
  strContains p r.src

/-- The substitution a matching rule performs: `path.replace(from, to)`. -/
def substRule (r : PathTranslation) (p : String) : String :=
  strReplace p r.src r.dst

/-- Modelled from the spec: the path-translation scanning algorithm itself
lives outside the files under src/ (only the per-profile rewrite tables are
there).  Per §4.3: the rewrite table is scanned in declaration order; each
rule whose `from` matches the input path replaces that fragment with `to`;
if the rule's `stop` flag is set, scanning halts after that substitution;
otherwise scanning continues linearly through the remaining rules (a single
forward pass, no re-scan from the top); absence of any matching rule leaves
the path unchanged. -/
def applyRules : List PathTranslation → String → String
  | [], p => p
  | r :: rs, p =>
    if ruleMatches r p then
      let p' := substRule r p
      if r.stop then p' else applyRules rs p'
    else
      applyRules rs p

/-! ## Per-profile rewrite tables (from the Rust sources, in declaration
order). -/

/-- `Knuckles::TRANSLATE_MAP`, src/input/profiles/knuckles.rs lines 13-39. -/
def knucklesTranslateMap : List PathTranslation :=
  [ ⟨"pull", "value", false⟩,
    ⟨"input/grip", "input/squeeze", false⟩,
    ⟨"squeeze/click", "squeeze/force", true⟩,
    ⟨"squeeze/grab", "squeeze/force", true⟩,
    ⟨"trackpad/click", "trackpad/force", true⟩ ]

/-- `Touch::TRANSLATE_MAP`, src/input/profiles/oculus_touch.rs lines 13-44. -/
def touchTranslateMap : List PathTranslation :=
  [ ⟨"trigger/click", "trigger/value", true⟩,
    ⟨"grip/click", "squeeze/value", true⟩,
    ⟨"trigger/pull", "trigger/value", true⟩,
    ⟨"trigger/click", "trigger/value", true⟩,
    ⟨"application_menu", "menu", true⟩,
    ⟨"joystick", "thumbstick", true⟩ ]

/-- `ViveWands::translate_map`, src/input/profiles/vive_controller.rs
lines 104-127. -/
def viveWandsTranslateMap : List PathTranslation :=
  [ ⟨"grip", "squeeze", true⟩,
    ⟨"trigger/pull", "trigger/value", true⟩,
    ⟨"trigger/click", "trigger/value", true⟩,
    ⟨"application_menu", "menu", true⟩ ]

/-! ## Per-profile legal path sets, mirroring the iterator pipelines of the
Rust `legal_paths` functions. -/

/-- The `/user/hand/left/{p}`, `/user/hand/right/{p}` expansion used by every
profile's `legal_paths`. -/
def bothHands (p : String) : List String :=
  ["/user/hand/left/" ++ p, "/user/hand/right/" ++ p]

/-- `Knuckles::legal_paths`, src/input/profiles/knuckles.rs lines 41-71. -/
def knucklesLegalPaths : List String :=
  let click_and_touch :=
    ["input/a", "input/b", "input/trigger", "input/thumbstick"].flatMap
      (fun p => [p ++ "/click", p ++ "/touch"])
  let x_and_y :=
    ["input/thumbstick", "input/trackpad"].flatMap
      (fun p => [p ++ "/x", p ++ "/y", p])
  let misc :=
    [ "input/squeeze/value", "input/squeeze/force", "input/trigger/value",
      "input/trackpad/force", "input/trackpad/touch", "input/grip/pose",
      "input/aim/pose", "output/haptic" ]
  (click_and_touch ++ x_and_y ++ misc).flatMap bothHands

/-- `Touch::legal_paths`, src/input/profiles/oculus_touch.rs lines 57-99. -/
def touchLegalPaths : List String :=
  let left_only :=
    [ "input/x/click", "input/x/touch", "input/y/click", "input/y/touch",
      "input/menu/click" ].map (fun p => "/user/hand/left/" ++ p)
  let right_only :=
    [ "input/a/click", "input/a/touch", "input/b/click", "input/b/touch"
      ].map (fun p => "/user/hand/right/" ++ p)
  let both :=
    [ "input/squeeze/value", "input/trigger/value", "input/trigger/touch",
      "input/thumbstick", "input/thumbstick/x", "input/thumbstick/y",
      "input/thumbstick/click", "input/thumbstick/touch",
      "input/thumbrest/touch", "input/grip/pose", "input/aim/pose",
      "output/haptic" ].flatMap bothHands
  left_only ++ right_only ++ both

/-- `ViveWands::legal_paths`, src/input/profiles/vive_controller.rs
lines 129-152. -/
def viveWandsLegalPaths : List String :=
  [ "input/squeeze/click", "input/menu/click", "input/trigger/click",
    "input/trigger/value", "input/trackpad", "input/trackpad/x",
    "input/trackpad/y", "input/trackpad/click", "input/trackpad/touch",
    "input/grip/pose", "input/aim/pose", "output/haptic" ].flatMap bothHands

/-! ## Tracked devices and the device registry (src/input/devices.rs,
src/input/devices/generic_tracker.rs)

`tracked_device.rs`, `hmd.rs` and `controller.rs` are not under src/ (only
their callers are), so the constructors and the reserved-index constant are
modelled from the spec where noted. -/

inductive TrackedDeviceType where
  | hmd
  | leftHand
  | rightHand
  | genericTracker
deriving DecidableEq, Repr

/-- Modelled from the spec: `RESERVED_DEVICE_INDECES` lives in
tracked_device.rs, which is not under src/.  Per §3, "Indices 0-2 are
reserved for HMD, left hand, right hand respectively"; generic trackers
occupy indices ≥ 3. -/
def RESERVED_DEVICE_INDECES : Nat := 3

/-- Modelled from the spec: `BaseDevice` (tracked_device.rs) is not under
src/.  Per §3 a tracked device owns an immutable index, an immutable type
and a live boolean connection flag; `lastConnected` is the per-device
"last reported" state read and stored by `System::PollNextEvent`
(src/system.rs lines 356-395).  Both flags start out false. -/
structure BaseDevice where
  index : Nat
  ty : TrackedDeviceType
  connected : Bool
  lastConnected : Bool
deriving DecidableEq, Repr

def BaseDevice.new (index : Nat) (ty : TrackedDeviceType) : BaseDevice :=
  { index := index, ty := ty, connected := false, lastConnected := false }

structure XrHMD where
  base : BaseDevice
deriving DecidableEq, Repr

/-- Modelled from the spec: `XrHMD::new` (hmd.rs) is not under src/.  Per
§8 the HMD is always at index 0. -/
def XrHMD.new : XrHMD :=
  ⟨BaseDevice.new 0 .hmd⟩

structure XrController where
  base : BaseDevice
deriving DecidableEq, Repr

/-- Modelled from the spec: `XrController::new` (controller.rs) is not
under src/.  Per §8, "left/right controllers, when constructed, are always
at indices 1 and 2 respectively"; the constructor stores the reserved
index for its hand.  (`TrackedDeviceList::new` only ever constructs
controllers for the two hand types; the final arm is never reached
there.) -/
def XrController.new : TrackedDeviceType → XrController
  | .leftHand => ⟨BaseDevice.new 1 .leftHand⟩
  | .rightHand => ⟨BaseDevice.new 2 .rightHand⟩
  | t => ⟨BaseDevice.new 0 t⟩

/-- Modelled from the spec: `Xdev` (runtime_extensions/mndx_xdev_space.rs)
is not under src/.  Per §6 the enumeration extension exposes external
devices, "each with an optional tracking-space handle and descriptive
properties (name, serial)".  Space handles are modelled as `Nat`. -/
structure Xdev where
  space : Option Nat
  name : String
  serial : String
deriving DecidableEq, Repr

/-- `XrGenericTracker` (src/input/devices/generic_tracker.rs lines 12-17):
base device, bound space, cached name and serial strings. -/
structure XrGenericTracker where
  base : BaseDevice
  space : Nat
  name : String
  serial : String
deriving DecidableEq, Repr

/-- `XrGenericTracker::new` (src/input/devices/generic_tracker.rs lines
19-51): builds a tracker at the given index from an enumerated device,
assigns the vive-tracker interaction profile and stores `connected :=
true`.  The Rust constructor `assert!`s (fatally) that `index ≥
RESERVED_DEVICE_INDECES` and that `dev.space` is present; every use in
this file satisfies both (its caller filters for `space.is_some()` and the
theorems about registries carry the reserved-slot hypothesis), so the
embedding reads the space with a default instead of modelling the abort. -/
def XrGenericTracker.new (index : Nat) (dev : Xdev) : XrGenericTracker :=
  { base := { BaseDevice.new index .genericTracker with connected := true }
    space := dev.space.getD 0
    name := dev.name
    serial := dev.serial }

/-- src/input/devices.rs lines 23-28. -/
inductive TrackedDeviceContainer where
  | hmd (d : XrHMD)
  | controller (d : XrController)
  | genericTracker (d : XrGenericTracker)
deriving DecidableEq, Repr

def TrackedDeviceContainer.base : TrackedDeviceContainer → BaseDevice
  | .hmd d => d.base
  | .controller d => d.base
  | .genericTracker d => d.base

/-- `device.device_index()` via the `TrackedDevice` trait. -/
def TrackedDeviceContainer.index (d : TrackedDeviceContainer) : Nat :=
  d.base.index

/-- `device.get_type()` via the `TrackedDevice` trait. -/
def TrackedDeviceContainer.getType (d : TrackedDeviceContainer) : TrackedDeviceType :=
  d.base.ty

/-- `device.connected()`: the device's atomic connection flag. -/
def TrackedDeviceContainer.connected (d : TrackedDeviceContainer) : Bool :=
  d.base.connected

/-- `device.last_connected_state()` as read by `PollNextEvent`. -/
def TrackedDeviceContainer.lastConnected (d : TrackedDeviceContainer) : Bool :=
  d.base.lastConnected

def TrackedDeviceContainer.withConnected : TrackedDeviceContainer → Bool → TrackedDeviceContainer
  | .hmd d, b => .hmd ⟨{ d.base with connected := b }⟩
  | .controller d, b => .controller ⟨{ d.base with connected := b }⟩
  | .genericTracker d, b => .genericTracker { d with base := { d.base with connected := b } }

def TrackedDeviceContainer.withLastConnected : TrackedDeviceContainer → Bool → TrackedDeviceContainer
  | .hmd d, b => .hmd ⟨{ d.base with lastConnected := b }⟩
  | .controller d, b => .controller ⟨{ d.base with lastConnected := b }⟩
  | .genericTracker d, b => .genericTracker { d with base := { d.base with lastConnected := b } }

/-- src/input/devices.rs lines 30-32. -/
structure TrackedDeviceList where
  devices : List TrackedDeviceContainer
deriving DecidableEq, Repr

namespace TrackedDeviceList

/-- `Default for TrackedDeviceList` (src/input/devices.rs lines 34-40). -/
def default : TrackedDeviceList :=
  ⟨[.hmd XrHMD.new]⟩

/-- `TrackedDeviceList::new` (src/input/devices.rs lines 44-52). -/
def new : TrackedDeviceList :=
  ⟨[ .hmd XrHMD.new,
     .controller (XrController.new .leftHand),
     .controller (XrController.new .rightHand) ]⟩

/-- src/input/devices.rs lines 54-56. -/
def push (l : TrackedDeviceList) (d : TrackedDeviceContainer) : TrackedDeviceList :=
  ⟨l.devices ++ [d]⟩

/-- `TrackedDeviceList::get_device` (src/input/devices.rs lines 58-63):
`self.devices.get(device_index as usize)`, the bounds-checked access. -/
def getDevice (l : TrackedDeviceList) (i : Nat) : Option TrackedDeviceContainer :=
  l.devices[i]?

/-- src/input/devices.rs lines 132-134. -/
def len (l : TrackedDeviceList) : Nat :=
  l.devices.length

/-- src/input/devices.rs lines 136-138 (`Vec::truncate`). -/
def truncate (l : TrackedDeviceList) (n : Nat) : TrackedDeviceList :=
  ⟨l.devices.take n⟩

end TrackedDeviceList

/-- Outcome of an operation that may abort.  `fatal` is a defined Rust
abort (`panic!` / a failed `assert!` / `Result::unwrap` on an error);
`ub` is undefined behavior (here: `Vec::get_unchecked` out of bounds). -/
inductive FatalOr (α : Type) where
  | ok (val : α)
  | fatal (msg : String)
  | ub
deriving DecidableEq, Repr

namespace TrackedDeviceList

/-- `TrackedDeviceList::get_device_unchecked` (src/input/devices.rs lines
72-77): `self.devices.get_unchecked(device_index as usize)` — undefined
behavior when the index is out of bounds. -/
def getDeviceUnchecked (l : TrackedDeviceList) (i : Nat) : FatalOr TrackedDeviceContainer :=
  match l.devices[i]? with
  | some d => .ok d
  | none => .ub

/-- `TrackedDeviceList::get_controller` (src/input/devices.rs lines
115-126): unchecked access at the reserved index for the hand, then a
`panic!` unless the slot holds a controller; a non-hand argument is a
`panic!` as well. -/
def getController (l : TrackedDeviceList) (hand : TrackedDeviceType) : FatalOr XrController :=
  let controller :=
    match hand with
    | .leftHand => l.getDeviceUnchecked 1
    | .rightHand => l.getDeviceUnchecked 2
    | _ => .fatal "Invalid hand type"
  match controller with
  | .ok (.controller c) => .ok c
  | .ok _ => .fatal "Controller is not the second or third device in the list"
  | .fatal m => .fatal m
  | .ub => .ub

end TrackedDeviceList

/-! ## Dynamic generic-tracker discovery (src/input/devices.rs lines
140-173) -/

/-- The filter in `create_generic_trackers`: keeps devices that expose a
space and whose lowercased name contains "tracker". -/
def xdevMatches (d : Xdev) : Bool :=
  d.space.isSome && strContains (strToLower d.name) "tracker"

/-- `TrackedDeviceList::create_generic_trackers`.  The runtime inputs are
made explicit: `ext = none` embeds a missing xdev extension
(`xr_data.xdev_extension.is_none()`); `ext = some r` carries the outcome
of `enumerate_xdevs` (whose error the `?` operator propagates).  Error
codes are modelled as `Int`.  On success the registry is truncated to the
reserved indices and one tracker is pushed per surviving entry, each
constructed at the then-current length. -/
def TrackedDeviceList.createGenericTrackers (l : TrackedDeviceList)
    (ext : Option (Except Int (List Xdev))) : Except Int TrackedDeviceList :=
  match ext with
  | none => .ok l
  | some (.error e) => .error e
  | some (.ok devs) =>
    let xdevs := devs.filter xdevMatches
    let base := l.truncate RESERVED_DEVICE_INDECES
    .ok (xdevs.foldl
      (fun acc xdev => acc.push (.genericTracker (XrGenericTracker.new acc.len xdev)))
      base)

/-! ## Generic-tracker pose resolution (src/input/devices/generic_tracker.rs
lines 53-74) -/

/-- External conversion `vr::space_relation_to_openvr_pose` (openvr crate):
the located relation payload is carried through opaquely. -/
def spaceRelationToOpenvrPose (relation : Nat) : Nat :=
  relation

/-- `XrGenericTracker::get_pose`.  The external call
`self.space.relate(session_data.get_space_for_origin(origin),
xr_data.display_time.get())` is made explicit as the `relateResult`
argument: `Except.ok` carries the `(location, velocity)` payload
(modelled opaquely as `Nat`), `Except.error` an OpenXR error code.  The
Rust body unwraps that result — `.unwrap()` on an `Err` is a panic — and
then always returns `Some(space_relation_to_openvr_pose(..))`. -/
def XrGenericTracker.getPose (relateResult : Except Int Nat) : FatalOr (Option Nat) :=
  match relateResult with
  | .ok relation => .ok (some (spaceRelationToOpenvrPose relation))
  | .error _ => .fatal "called Result::unwrap() on an Err value"

/-! ## System property queries (src/system.rs)

The queries are pure in everything the claims touch: the device registry,
the index, the caller's error-slot value `err0` (the C interface writes
through an out-pointer; a query that never writes it leaves `err0` in
place), and a per-variant lookup function standing for the
`device.get_*_property` trait calls (those live in files not under src/;
per §4.2 they route to the interaction profile or runtime values).  The C
string-buffer marshalling of `GetStringTrackedDeviceProperty` (the
`BufferTooSmall` path) is memory-layout detail and is not modelled; the
value returned here is the property string itself.  `f32` values are
modelled as `Int` (only the constant `0.0` ↦ `0` occurs in the embedded
paths). -/

inductive ETrackedPropertyError where
  | success
  | invalidDevice
  | bufferTooSmall
  | unknownProperty
deriving DecidableEq, Repr

/-- `System::IsTrackedDeviceConnected` (src/system.rs lines 551-558). -/
def isTrackedDeviceConnected (l : TrackedDeviceList) (i : Nat) : Bool :=
  match l.getDevice i with
  | some dev => dev.connected
  | none => false

/-- `System::GetStringTrackedDeviceProperty` (src/system.rs lines 403-450):
no device at the index or a disconnected device sets `InvalidDevice` and
returns nothing; otherwise the device's `get_string_property` answers. -/
def GetStringTrackedDeviceProperty (l : TrackedDeviceList) (i : Nat)
    (lookup : TrackedDeviceContainer → String × ETrackedPropertyError) :
    String × ETrackedPropertyError :=
  match l.getDevice i with
  | none => ("", .invalidDevice)
  | some device =>
    if device.connected = false then ("", .invalidDevice)
    else lookup device

/-- `System::GetUint64TrackedDeviceProperty` (src/system.rs lines 470-487).
The error slot is written twice: `InvalidDevice` when the device is not
connected, then — unconditionally — `UnknownProperty`; the second write
overwrites the first, and 0 is returned. -/
def GetUint64TrackedDeviceProperty (l : TrackedDeviceList) (i : Nat)
    (err0 : ETrackedPropertyError) : Nat × ETrackedPropertyError :=
  let _errDeadStore :=
    if isTrackedDeviceConnected l i = false then ETrackedPropertyError.invalidDevice
    else err0
  (0, ETrackedPropertyError.unknownProperty)

/-- `System::GetInt32TrackedDeviceProperty` (src/system.rs lines 488-508):
a disconnected device at a valid index sets `InvalidDevice` and returns 0;
a missing device returns 0 leaving the caller's error slot untouched. -/
def GetInt32TrackedDeviceProperty (l : TrackedDeviceList) (i : Nat)
    (err0 : ETrackedPropertyError)
    (lookup : TrackedDeviceContainer → Int × ETrackedPropertyError) :
    Int × ETrackedPropertyError :=
  match l.getDevice i with
  | some device =>
    if device.connected = false then (0, .invalidDevice)
    else lookup device
  | none => (0, err0)

/-- `System::GetFloatTrackedDeviceProperty` (src/system.rs lines 509-528),
same shape as the int32 query (`f32` modelled as `Int`). -/
def GetFloatTrackedDeviceProperty (l : TrackedDeviceList) (i : Nat)
    (err0 : ETrackedPropertyError)
    (lookup : TrackedDeviceContainer → Int × ETrackedPropertyError) :
    Int × ETrackedPropertyError :=
  match l.getDevice i with
  | some device =>
    if device.connected = false then (0, .invalidDevice)
    else lookup device
  | none => (0, err0)

/-- `System::GetBoolTrackedDeviceProperty` (src/system.rs lines 530-549),
same shape as the int32 query. -/
def GetBoolTrackedDeviceProperty (l : TrackedDeviceList) (i : Nat)
    (err0 : ETrackedPropertyError)
    (lookup : TrackedDeviceContainer → Bool × ETrackedPropertyError) :
    Bool × ETrackedPropertyError :=
  match l.getDevice i with
  | some device =>
    if device.connected = false then (false, .invalidDevice)
    else lookup device
  | none => (false, err0)

/-- Storing a device's connection flag (the per-device atomic boolean,
§5): updates device `i` in place, a no-op for an out-of-range index. -/
def TrackedDeviceList.setConnected (l : TrackedDeviceList) (i : Nat) (b : Bool) :
    TrackedDeviceList :=
  match l.devices[i]? with
  | some d => ⟨l.devices.set i (d.withConnected b)⟩
  | none => l

/-! ## PollNextEvent (src/system.rs lines 356-395) -/

inductive EVREventType where
  | trackedDeviceActivated
  | trackedDeviceDeactivated
deriving DecidableEq, Repr

/-- The fields of `vr::VREvent_t` that `PollNextEvent` writes
(`eventAgeSeconds`, the constant `0.0`, is modelled as `0`). -/
structure VREvent where
  eventType : EVREventType
  trackedDeviceIndex : Nat
  eventAgeSeconds : Nat
deriving DecidableEq, Repr

/-- The event written by the `device_state_event` closure for a device
whose current connection state differs from the last reported one. -/
def deviceStateEvent (d : TrackedDeviceContainer) : VREvent :=
  { eventType :=
      if d.connected then .trackedDeviceActivated else .trackedDeviceDeactivated
    trackedDeviceIndex := d.index
    eventAgeSeconds := 0 }

/-- `System::PollNextEvent`: scans the registry in index order; at the
first device whose `connected()` differs from `last_connected_state()` it
stores the new state into `last_connected_state`, writes one
activated/deactivated event and returns `true` (here: `some event` plus
the updated registry); otherwise returns `false` (here: `none`) leaving
everything unchanged. -/
def pollNextEvent : List TrackedDeviceContainer →
    Option VREvent × List TrackedDeviceContainer
  | [] => (none, [])
  | d :: rest =>
    if d.connected ≠ d.lastConnected then
      (some (deviceStateEvent d), d.withLastConnected d.connected :: rest)
    else
      let (ev, rest') := pollNextEvent rest
      (ev, d :: rest')

/-! ## Legacy bindings (src/input/profiles/{knuckles,oculus_touch,
vive_controller}.rs)

`LegacyBindings` itself lives in src/input/legacy.rs (not under src/); its
six path-list fields are exactly the ones every embedded `legacy_bindings`
body fills, and `stp.leftright(p)` (src/input/profiles.rs lines 73-80)
expands to the left- and right-hand paths, modelled by `bothHands`. -/

structure LegacyBindings where
  grip_pose : List String
  aim_pose : List String
  app_menu : List String
  trigger : List String
  trigger_click : List String
  squeeze : List String
deriving DecidableEq, Repr

/-- `Knuckles::legacy_bindings` (src/input/profiles/knuckles.rs lines
73-82). -/
def knucklesLegacyBindings : LegacyBindings :=
  { grip_pose := bothHands "input/grip/pose"
    aim_pose := bothHands "input/aim/pose"
    app_menu := bothHands "input/b/click"
    trigger := bothHands "input/trigger/click"
    trigger_click := bothHands "input/trigger/value"
    squeeze := bothHands "input/squeeze/value" }

/-- `Touch::legacy_bindings` (src/input/profiles/oculus_touch.rs lines
46-55): `app_menu` is the empty vector (marked TODO in the source). -/
def touchLegacyBindings : LegacyBindings :=
  { grip_pose := bothHands "input/grip/pose"
    aim_pose := bothHands "input/aim/pose"
    trigger := bothHands "input/trigger/value"
    trigger_click := bothHands "input/trigger/value"
    app_menu := []
    squeeze := bothHands "input/squeeze/value" }

/-- `ViveWands::legacy_bindings` (src/input/profiles/vive_controller.rs
lines 154-163). -/
def viveWandsLegacyBindings : LegacyBindings :=
  { grip_pose := bothHands "input/grip/pose"
    aim_pose := bothHands "input/aim/pose"
    trigger := bothHands "input/trigger/value"
    trigger_click := bothHands "input/trigger/click"
    app_menu := bothHands "input/menu/click"
    squeeze := bothHands "input/squeeze/click" }

/-- Modelled from the spec: the post-rewrite legality check (§4.3, §6
`translate_and_validate`) lives outside the files under src/.  "After
rewriting, every resulting path is checked against the profile's
legal-path set ... A rewritten path outside the legal set is a binding
error for that profile, surfaced to the caller, not silently dropped." -/
inductive BindingError where
  | pathNotLegal (path : String)
deriving DecidableEq, Repr

/-- Modelled from the spec (§4.3/§6): run the profile's rewrite table,
then accept the result only if it is in the profile's legal-path set,
surfacing anything else as a `BindingError`. -/
def translateAndValidate (rules : List PathTranslation) (legal : List String)
    (p : String) : Except BindingError String :=
  let q := applyRules rules p
  if q ∈ legal then .ok q else .error (.pathNotLegal q)

/-! ## Auxiliary definitions for the theorems -/

/-- A registry in which every device sits at the position equal to its own
index (the invariant the constructors establish). -/
def indexConsistent (l : TrackedDeviceList) : Prop :=
  ∀ i, ∀ h : i < l.devices.length, (l.devices.get ⟨i, h⟩).index = i

/-- Discriminates the undefined-behavior outcome. -/
def FatalOr.isUB : FatalOr α → Bool
  | .ub => true
  | _ => false

/-- The trackers `create_generic_trackers` appends when the registry has
length `n` as the loop reaches them: each is constructed at the
then-current registry length. -/
def trackersFrom : Nat → List Xdev → List TrackedDeviceContainer
  | _, [] => []
  | n, x :: xs => .genericTracker (XrGenericTracker.new n x) :: trackersFrom (n + 1) xs

/-- A concrete external tracker device, used to witness the discovery
theorems. -/
def sampleXdev : Xdev :=
  ⟨some 7, "Vive Tracker 3.0", "LHR-TRACKER01"⟩

/-- The registry obtained by refreshing the HMD+controllers registry with
`sampleXdev` as the only external device. -/
def sampleRefreshedRegistry : TrackedDeviceList :=
  ⟨TrackedDeviceList.new.devices
    ++ [.genericTracker (XrGenericTracker.new 3 sampleXdev)]⟩

/-- The HMD+controllers registry with the left controller marked
connected, used to witness the disconnection theorem. -/
def sampleLiveRegistry : TrackedDeviceList :=
  TrackedDeviceList.new.setConnected 1 true

/-- A device whose connection flag differs from its last reported state,
used to witness the event-polling theorem. -/
def samplePollDevice : TrackedDeviceContainer :=
  .hmd ⟨⟨0, .hmd, true, false⟩⟩

/-! ## Theorems -/

/-- C1: Path translation scans the rewrite table in declaration order,
substituting the matched fragment of each rule whose `from` matches the
path; a matching rule with `stop` set halts the scan; after a matching
non-stopping rule the scan continues linearly through the remaining rules
(one forward pass, no re-scan from the top), so a later rule may further
rewrite the substituted result; if no rule matches, the path is returned
unchanged (illustrated on the Oculus Touch table, which has no rule
matching "input/grip/pose"). -/
theorem translate_single_forward_pass
    (r : PathTranslation) (rs rules : List PathTranslation) (p : String) :
    applyRules [] p = p
    ∧ (ruleMatches r p = false → applyRules (r :: rs) p = applyRules rs p)
    ∧ (ruleMatches r p = true → r.stop = true →
        applyRules (r :: rs) p = substRule r p)
    ∧ (ruleMatches r p = true → r.stop = false →
        applyRules (r :: rs) p = applyRules rs (substRule r p))
    ∧ ((∀ q ∈ rules, ruleMatches q p = false) → applyRules rules p = p)
    ∧ applyRules touchTranslateMap "input/grip/pose" = "input/grip/pose" := by
  refine ⟨rfl, ?_, ?_, ?_, ?_, by decide⟩
  · intro h; simp [applyRules, h]
  · intro h hs; simp [applyRules, h, hs]
  · intro h hs; simp [applyRules, h, hs]
  · intro hall
    induction rules with
    | nil => rfl
    | cons q qs ih =>
      have hq := hall q (List.mem_cons_self _ _)
      simp only [applyRules, hq, Bool.false_eq_true, if_false]
      exact ih (fun x hx => hall x (List.mem_cons_of_mem _ hx))

theorem translate_single_forward_pass_witness :
    ruleMatches ⟨"pull", "value", false⟩ "/user/hand/left/input/grip/pull" = true
    ∧ applyRules [⟨"pull", "value", false⟩, ⟨"input/grip", "input/squeeze", false⟩]
        "/user/hand/left/input/grip/pull"
      = applyRules [⟨"input/grip", "input/squeeze", false⟩]
          (substRule ⟨"pull", "value", false⟩ "/user/hand/left/input/grip/pull") :=
  ⟨by decide,
   (translate_single_forward_pass ⟨"pull", "value", false⟩
      [⟨"input/grip", "input/squeeze", false⟩] []
      "/user/hand/left/input/grip/pull").2.2.2.1 (by decide) (by decide)⟩

/-- C2 (counterexample): the Knuckles legal path
"/user/hand/left/input/grip/pose" is rewritten by the rule
`input/grip → input/squeeze` to "/user/hand/left/input/squeeze/pose",
which is not in the Knuckles legal-path set — translation of a legal path
escapes the legal set. -/
theorem knuckles_grip_pose_translation_escapes :
    "/user/hand/left/input/grip/pose" ∈ knucklesLegalPaths
    ∧ applyRules knucklesTranslateMap "/user/hand/left/input/grip/pose"
        = "/user/hand/left/input/squeeze/pose"
    ∧ "/user/hand/left/input/squeeze/pose" ∉ knucklesLegalPaths := by
  refine ⟨by decide, by decide, by decide⟩

set_option maxHeartbeats 4000000 in
/-- C2 (amended): for each profile, every declared legal path except the
grip-pose paths (the counterexample family) translates back into the
profile's legal-path set; and a rewritten path outside the legal set is
surfaced by validation as a binding error naming that path, never
silently dropped. -/
theorem translate_closure_outside_grip_pose :
    (∀ tbl ∈ [(knucklesTranslateMap, knucklesLegalPaths),
              (touchTranslateMap, touchLegalPaths),
              (viveWandsTranslateMap, viveWandsLegalPaths)],
      ∀ p ∈ tbl.2, strContains p "input/grip/pose" = false →
        applyRules tbl.1 p ∈ tbl.2)
    ∧ (∀ rules legal p, applyRules rules p ∉ legal →
        translateAndValidate rules legal p
          = .error (.pathNotLegal (applyRules rules p))) := by
  constructor
  · decide
  · intro rules legal p h
    simp [translateAndValidate, h]

theorem translate_closure_outside_grip_pose_witness :
    applyRules knucklesTranslateMap "/user/hand/left/input/trigger/value"
      ∈ knucklesLegalPaths :=
  translate_closure_outside_grip_pose.1
    (knucklesTranslateMap, knucklesLegalPaths) (by decide)
    "/user/hand/left/input/trigger/value" (by decide) (by decide)

/-- C3: bounds-checked registry access — for `i` within the registry,
`get_device(i)` returns exactly the device stored at position `i`, whose
own index is `i` whenever the registry is index-consistent (as the
HMD+left+right constructor is); for `i` at or beyond the registry length
it returns `none`, never an out-of-bounds access. -/
theorem getDevice_bounds_and_index (l : TrackedDeviceList) (i : Nat) :
    (∀ h : i < l.devices.length,
      l.getDevice i = some (l.devices.get ⟨i, h⟩)
      ∧ (indexConsistent l → (l.devices.get ⟨i, h⟩).index = i))
    ∧ (l.devices.length ≤ i → l.getDevice i = none)
    ∧ indexConsistent TrackedDeviceList.new := by
  refine ⟨fun h => ⟨?_, fun hc => hc i h⟩, fun h => ?_, ?_⟩
  · simp [TrackedDeviceList.getDevice, List.getElem?_eq_getElem h, List.get_eq_getElem]
  · simp [TrackedDeviceList.getDevice, List.getElem?_eq_none h]
  · unfold indexConsistent
    decide

theorem getDevice_bounds_and_index_witness :
    TrackedDeviceList.new.getDevice 1
        = some (TrackedDeviceList.new.devices.get ⟨1, by decide⟩)
    ∧ (TrackedDeviceList.new.devices.get ⟨1, by decide⟩).index = 1
    ∧ TrackedDeviceList.new.getDevice 5 = none :=
  ⟨((getDevice_bounds_and_index TrackedDeviceList.new 1).1 (by decide)).1,
   ((getDevice_bounds_and_index TrackedDeviceList.new 1).1 (by decide)).2
     (getDevice_bounds_and_index TrackedDeviceList.new 0).2.2,
   (getDevice_bounds_and_index TrackedDeviceList.new 5).2.1 (by decide)⟩

/-- C4: `XrGenericTracker::get_pose` at each possible outcome of the
external `space.relate` call.  A failed relation is unwrapped — a Rust
panic — and a successful one always yields `Some`; the "absent" (`None`)
outcome the spec promises is never produced, and the error case is a
crash, not an absent result. -/
theorem getPose_relate_error_panics :
    XrGenericTracker.getPose (.error (-12))
      = .fatal "called Result::unwrap() on an Err value"
    ∧ (∀ e : Int, XrGenericTracker.getPose (.error e)
        = .fatal "called Result::unwrap() on an Err value")
    ∧ (∀ relation : Nat, XrGenericTracker.getPose (.ok relation)
        = .ok (some (spaceRelationToOpenvrPose relation))) :=
  ⟨rfl, fun _ => rfl, fun _ => rfl⟩

theorem foldl_push_trackers (xdevs : List Xdev) (l : TrackedDeviceList) :
    (xdevs.foldl
      (fun acc xdev => acc.push (.genericTracker (XrGenericTracker.new acc.len xdev)))
      l).devices
      = l.devices ++ trackersFrom l.devices.length xdevs := by
  induction xdevs generalizing l with
  | nil => simp [trackersFrom]
  | cons x xs ih =>
    rw [List.foldl_cons, ih]
    simp [TrackedDeviceList.push, TrackedDeviceList.len, trackersFrom]

/-- C5: discovery refresh is idempotent for an unchanged external device
list — whenever a refresh of a registry with the reserved slots intact
produced `l2`, refreshing `l2` with the same extension outcome reproduces
`l2` exactly (same trackers at the same indices with the same
properties).  The reserved-slot hypothesis matches the construction-time
invariant: on a registry shorter than the reserved boundary the Rust
tracker constructor aborts its first run outright (reserved-index
`assert!`). -/
theorem createGenericTrackers_idempotent (l l2 : TrackedDeviceList)
    (ext : Option (Except Int (List Xdev)))
    (h3 : 3 ≤ l.devices.length)
    (h : l.createGenericTrackers ext = .ok l2) :
    l2.createGenericTrackers ext = .ok l2 := by
  match ext with
  | none =>
    cases h
    rfl
  | some (.error e) =>
    simp [TrackedDeviceList.createGenericTrackers] at h
  | some (.ok devs) =>
    simp only [TrackedDeviceList.createGenericTrackers, Except.ok.injEq] at h ⊢
    have hlen : (l.truncate RESERVED_DEVICE_INDECES).devices.length = 3 := by
      simp [TrackedDeviceList.truncate, RESERVED_DEVICE_INDECES, List.length_take]
      omega
    have hl2 : l2.devices
        = (l.truncate RESERVED_DEVICE_INDECES).devices
          ++ trackersFrom 3 (devs.filter xdevMatches) := by
      rw [← h, foldl_push_trackers, hlen]
    have htrunc : l2.truncate RESERVED_DEVICE_INDECES
        = l.truncate RESERVED_DEVICE_INDECES := by
      unfold TrackedDeviceList.truncate
      rw [hl2]
      congr 1
      rw [List.take_append_of_le_length (by rw [hlen]; rfl)]
      simp [TrackedDeviceList.truncate, List.take_take]
    rw [htrunc]
    exact h

theorem createGenericTrackers_idempotent_witness :
    sampleRefreshedRegistry.createGenericTrackers (some (.ok [sampleXdev]))
      = .ok sampleRefreshedRegistry :=
  createGenericTrackers_idempotent TrackedDeviceList.new sampleRefreshedRegistry
    (some (.ok [sampleXdev])) (by decide) (by rfl)

/-- C6: discovery refresh succeeds in both degenerate cases — with the
enumeration extension unavailable it is a no-op success, and with zero
devices surviving the space-and-"tracker"-name filter it truncates the
registry to exactly the reserved indices and succeeds; an error is
reported exactly when the underlying extension call itself errors. -/
theorem createGenericTrackers_degenerate_success
    (l : TrackedDeviceList) (devs : List Xdev) (e : Int) :
    l.createGenericTrackers none = .ok l
    ∧ (devs.filter xdevMatches = [] →
        l.createGenericTrackers (some (.ok devs))
          = .ok (l.truncate RESERVED_DEVICE_INDECES))
    ∧ (3 ≤ l.devices.length → devs.filter xdevMatches = [] →
        ∃ l2, l.createGenericTrackers (some (.ok devs)) = .ok l2
          ∧ l2.devices.length = RESERVED_DEVICE_INDECES)
    ∧ l.createGenericTrackers (some (.error e)) = .error e
    ∧ (∀ ext, (∃ err, l.createGenericTrackers ext = .error err)
        ↔ (∃ err, ext = some (.error err))) := by
  have hempty : ∀ hf : devs.filter xdevMatches = [],
      l.createGenericTrackers (some (.ok devs))
        = .ok (l.truncate RESERVED_DEVICE_INDECES) := by
    intro hf
    simp only [TrackedDeviceList.createGenericTrackers, hf, List.foldl_nil]
  refine ⟨rfl, hempty, ?_, rfl, ?_⟩
  · intro h3 hf
    refine ⟨l.truncate RESERVED_DEVICE_INDECES, hempty hf, ?_⟩
    simp [TrackedDeviceList.truncate, RESERVED_DEVICE_INDECES, List.length_take]
    omega
  · intro ext
    match ext with
    | none => simp [TrackedDeviceList.createGenericTrackers]
    | some (.error e2) => simp [TrackedDeviceList.createGenericTrackers]
    | some (.ok devs2) => simp [TrackedDeviceList.createGenericTrackers]

theorem createGenericTrackers_degenerate_success_witness :
    TrackedDeviceList.new.createGenericTrackers
        (some (.ok [⟨none, "Spaceless Tracker", "S0"⟩]))
      = .ok (TrackedDeviceList.new.truncate RESERVED_DEVICE_INDECES) :=
  (createGenericTrackers_degenerate_success TrackedDeviceList.new
    [⟨none, "Spaceless Tracker", "S0"⟩] (-2)).2.1 (by decide)

theorem withConnected_connected (d : TrackedDeviceContainer) (b : Bool) :
    (d.withConnected b).connected = b := by
  cases d <;> rfl

/-- C7: disconnecting the device at index `i` makes the string, bool,
int32 and float property queries for `i` report `InvalidDevice`; the
uint64 query instead reports `UnknownProperty` — its conditional
`InvalidDevice` store is unconditionally overwritten (the code-bug
divergence) — while the device entries, property queries and connection
state at every other index are untouched. -/
theorem disconnected_device_property_queries
    (l : TrackedDeviceList) (i : Nat) (d : TrackedDeviceContainer)
    (hd : l.getDevice i = some d)
    (err0 : ETrackedPropertyError)
    (slook : TrackedDeviceContainer → String × ETrackedPropertyError)
    (blook : TrackedDeviceContainer → Bool × ETrackedPropertyError)
    (ilook flook : TrackedDeviceContainer → Int × ETrackedPropertyError) :
    GetStringTrackedDeviceProperty (l.setConnected i false) i slook
        = ("", .invalidDevice)
    ∧ GetBoolTrackedDeviceProperty (l.setConnected i false) i err0 blook
        = (false, .invalidDevice)
    ∧ GetInt32TrackedDeviceProperty (l.setConnected i false) i err0 ilook
        = (0, .invalidDevice)
    ∧ GetFloatTrackedDeviceProperty (l.setConnected i false) i err0 flook
        = (0, .invalidDevice)
    ∧ GetUint64TrackedDeviceProperty (l.setConnected i false) i err0
        = (0, .unknownProperty)
    ∧ (∀ j, j ≠ i → (l.setConnected i false).getDevice j = l.getDevice j)
    ∧ (∀ j, j ≠ i →
        GetStringTrackedDeviceProperty (l.setConnected i false) j slook
          = GetStringTrackedDeviceProperty l j slook
        ∧ GetBoolTrackedDeviceProperty (l.setConnected i false) j err0 blook
          = GetBoolTrackedDeviceProperty l j err0 blook
        ∧ GetInt32TrackedDeviceProperty (l.setConnected i false) j err0 ilook
          = GetInt32TrackedDeviceProperty l j err0 ilook
        ∧ GetFloatTrackedDeviceProperty (l.setConnected i false) j err0 flook
          = GetFloatTrackedDeviceProperty l j err0 flook
        ∧ isTrackedDeviceConnected (l.setConnected i false) j
          = isTrackedDeviceConnected l j) := by
  have hd2 : l.devices[i]? = some d := hd
  have hlt : i < l.devices.length := by
    rcases List.getElem?_eq_some.mp hd2 with ⟨h, _⟩
    exact h
  have hset : l.setConnected i false = ⟨l.devices.set i (d.withConnected false)⟩ := by
    unfold TrackedDeviceList.setConnected
    rw [hd2]
  have hafter : (l.setConnected i false).getDevice i
      = some (d.withConnected false) := by
    rw [hset]
    show (l.devices.set i (d.withConnected false))[i]? = _
    rw [List.getElem?_set_self hlt]
  have hconn : (d.withConnected false).connected = false :=
    withConnected_connected d false
  have hother : ∀ j, j ≠ i →
      (l.setConnected i false).getDevice j = l.getDevice j := by
    intro j hj
    rw [hset]
    show (l.devices.set i (d.withConnected false))[j]? = l.devices[j]?
    exact List.getElem?_set_ne (fun he => hj he.symm)
  refine ⟨?_, ?_, ?_, ?_, ?_, hother, ?_⟩
  · simp [GetStringTrackedDeviceProperty, hafter, hconn]
  · simp [GetBoolTrackedDeviceProperty, hafter, hconn]
  · simp [GetInt32TrackedDeviceProperty, hafter, hconn]
  · simp [GetFloatTrackedDeviceProperty, hafter, hconn]
  · simp [GetUint64TrackedDeviceProperty]
  · intro j hj
    have hg := hother j hj
    refine ⟨?_, ?_, ?_, ?_, ?_⟩ <;>
      simp only [GetStringTrackedDeviceProperty, GetBoolTrackedDeviceProperty,
        GetInt32TrackedDeviceProperty, GetFloatTrackedDeviceProperty,
        GetUint64TrackedDeviceProperty, isTrackedDeviceConnected, hg]

theorem disconnected_device_property_queries_witness :
    GetStringTrackedDeviceProperty (sampleLiveRegistry.setConnected 1 false) 1
        (fun _ => ("Knuckles", .success)) = ("", .invalidDevice)
    ∧ GetUint64TrackedDeviceProperty (sampleLiveRegistry.setConnected 1 false) 1
        .success = (0, .unknownProperty)
    ∧ (sampleLiveRegistry.setConnected 1 false).getDevice 0
        = sampleLiveRegistry.getDevice 0 :=
  ⟨(disconnected_device_property_queries sampleLiveRegistry 1
      (.controller ⟨⟨1, .leftHand, true, false⟩⟩) (by decide) .success
      (fun _ => ("Knuckles", .success)) (fun _ => (false, .success))
      (fun _ => (0, .success)) (fun _ => (0, .success))).1,
   (disconnected_device_property_queries sampleLiveRegistry 1
      (.controller ⟨⟨1, .leftHand, true, false⟩⟩) (by decide) .success
      (fun _ => ("Knuckles", .success)) (fun _ => (false, .success))
      (fun _ => (0, .success)) (fun _ => (0, .success))).2.2.2.2.1,
   (disconnected_device_property_queries sampleLiveRegistry 1
      (.controller ⟨⟨1, .leftHand, true, false⟩⟩) (by decide) .success
      (fun _ => ("Knuckles", .success)) (fun _ => (false, .success))
      (fun _ => (0, .success)) (fun _ => (0, .success))).2.2.2.2.2.1
     0 (by decide)⟩

/-- C8 (counterexample): on the default single-HMD registry — one
constructed without the reserved controller slots — `get_controller`
reaches `Vec::get_unchecked` out of bounds: the failure is undefined
behavior, not the defined fatal abort the claim asserts. -/
theorem getController_short_registry_ub :
    TrackedDeviceList.default.getController .leftHand = .ub := rfl

/-- C8 (amended): on a well-formed registry (HMD at 0, controllers at
indices 1 and 2) `get_controller` returns the controller at the reserved
index for the hand and never aborts; on a malformed registry that still
has at least the reserved number of entries its failure is a defined
fatal abort (panic), never undefined behavior; a registry lacking the
reserved slots instead reaches the unchecked out-of-bounds access (the
counterexample). -/
theorem getController_reserved_slots (l : TrackedDeviceList)
    (hmdD : XrHMD) (c1 c2 : XrController) (rest : List TrackedDeviceContainer) :
    (l.devices = .hmd hmdD :: .controller c1 :: .controller c2 :: rest →
      l.getController .leftHand = .ok c1 ∧ l.getController .rightHand = .ok c2)
    ∧ (3 ≤ l.devices.length →
        (l.getController .leftHand).isUB = false
        ∧ (l.getController .rightHand).isUB = false)
    ∧ TrackedDeviceList.new.getController .leftHand
        = .ok (XrController.new .leftHand)
    ∧ TrackedDeviceList.new.getController .rightHand
        = .ok (XrController.new .rightHand) := by
  have notub : ∀ (i : Nat), i < l.devices.length →
      ∀ res : FatalOr TrackedDeviceContainer,
      res = l.getDeviceUnchecked i →
      (match res with
        | .ok (.controller c) => FatalOr.ok c
        | .ok _ =>
          FatalOr.fatal "Controller is not the second or third device in the list"
        | .fatal m => FatalOr.fatal m
        | .ub => FatalOr.ub).isUB = false := by
    intro i hi res hres
    unfold TrackedDeviceList.getDeviceUnchecked at hres
    rw [List.getElem?_eq_getElem hi] at hres
    subst hres
    rcases l.devices[i] with d | d | d <;> rfl
  refine ⟨?_, ?_, rfl, rfl⟩
  · intro h
    unfold TrackedDeviceList.getController TrackedDeviceList.getDeviceUnchecked
    rw [h]
    constructor <;>
      simp only [List.getElem?_cons_zero, List.getElem?_cons_succ]
  · intro h3
    constructor
    · unfold TrackedDeviceList.getController
      exact notub 1 (by omega) _ rfl
    · unfold TrackedDeviceList.getController
      exact notub 2 (by omega) _ rfl

theorem getController_reserved_slots_witness :
    TrackedDeviceList.new.getController .leftHand
        = .ok (XrController.new .leftHand)
    ∧ (TrackedDeviceList.new.getController .rightHand).isUB = false :=
  ⟨((getController_reserved_slots TrackedDeviceList.new XrHMD.new
      (XrController.new .leftHand) (XrController.new .rightHand) []).1 rfl).1,
   ((getController_reserved_slots TrackedDeviceList.new XrHMD.new
      (XrController.new .leftHand) (XrController.new .rightHand) []).2.1
      (by decide)).2⟩

/-- C9 (counterexample): the Oculus Touch legacy-binding bundle has an
empty app-menu path list (the source leaves it `vec![]`, marked TODO), so
not every profile's bundle has a non-empty list for every legacy
category. -/
theorem touch_app_menu_empty : touchLegacyBindings.app_menu.isEmpty = true := rfl

/-- C9 (amended): every profile's legacy-binding bundle carries non-empty
path lists for grip pose, aim pose, trigger click, trigger value and
squeeze; the app-menu list is non-empty for Knuckles and Vive Wands but
empty for Oculus Touch (the counterexample). -/
theorem legacy_bindings_categories :
    knucklesLegacyBindings.grip_pose.isEmpty = false
    ∧ knucklesLegacyBindings.aim_pose.isEmpty = false
    ∧ knucklesLegacyBindings.app_menu.isEmpty = false
    ∧ knucklesLegacyBindings.trigger.isEmpty = false
    ∧ knucklesLegacyBindings.trigger_click.isEmpty = false
    ∧ knucklesLegacyBindings.squeeze.isEmpty = false
    ∧ viveWandsLegacyBindings.grip_pose.isEmpty = false
    ∧ viveWandsLegacyBindings.aim_pose.isEmpty = false
    ∧ viveWandsLegacyBindings.app_menu.isEmpty = false
    ∧ viveWandsLegacyBindings.trigger.isEmpty = false
    ∧ viveWandsLegacyBindings.trigger_click.isEmpty = false
    ∧ viveWandsLegacyBindings.squeeze.isEmpty = false
    ∧ touchLegacyBindings.grip_pose.isEmpty = false
    ∧ touchLegacyBindings.aim_pose.isEmpty = false
    ∧ touchLegacyBindings.trigger.isEmpty = false
    ∧ touchLegacyBindings.trigger_click.isEmpty = false
    ∧ touchLegacyBindings.squeeze.isEmpty = false
    ∧ touchLegacyBindings.app_menu.isEmpty = true := by
  decide

/-- C10: `PollNextEvent` reports at most one connection-state transition
per call — with no device changed it reports nothing and leaves all state
alone; at the first device (in scan order) whose connection flag differs
from the last reported state it emits exactly one activated/deactivated
event carrying that device's index and stores the new state as last
reported (so the updated entry compares equal and the same transition is
not reported again), leaving every other entry unchanged. -/
theorem pollNextEvent_first_transition (l : List TrackedDeviceContainer)
    (k : Nat) (dk : TrackedDeviceContainer) :
    ((∀ d ∈ l, d.connected = d.lastConnected) → pollNextEvent l = (none, l))
    ∧ (l[k]? = some dk →
        (∀ j dj, j < k → l[j]? = some dj → dj.connected = dj.lastConnected) →
        dk.connected ≠ dk.lastConnected →
        pollNextEvent l
          = (some (deviceStateEvent dk),
             l.set k (dk.withLastConnected dk.connected)))
    ∧ (∀ (d : TrackedDeviceContainer) (b : Bool),
        (d.withLastConnected b).lastConnected = b
        ∧ (d.withLastConnected b).connected = d.connected
        ∧ (d.withLastConnected b).index = d.index) := by
  refine ⟨?_, ?_, fun d b => by cases d <;> exact ⟨rfl, rfl, rfl⟩⟩
  · intro hall
    induction l with
    | nil => rfl
    | cons d rest ih =>
      have hd := hall d (List.mem_cons_self _ _)
      simp only [pollNextEvent, hd, ne_eq, not_true_eq_false, if_false,
        ih (fun x hx => hall x (List.mem_cons_of_mem _ hx))]
  · induction l generalizing k with
    | nil => intro h; simp at h
    | cons d rest ih =>
      intro hk hprev hne
      match k with
      | 0 =>
        simp only [List.getElem?_cons_zero, Option.some.injEq] at hk
        subst hk
        simp only [pollNextEvent]
        rw [if_pos hne]
        simp only [List.set_cons_zero]
      | k + 1 =>
        have h0 : d.connected = d.lastConnected :=
          hprev 0 d (Nat.zero_lt_succ k) (by simp)
        have hk2 : rest[k]? = some dk := by simpa using hk
        have hprev2 : ∀ j dj, j < k → rest[j]? = some dj →
            dj.connected = dj.lastConnected := by
          intro j dj hj hjd
          exact hprev (j + 1) dj (Nat.succ_lt_succ hj) (by simpa using hjd)
        have := ih k hk2 hprev2 hne
        simp only [pollNextEvent, h0, ne_eq, not_true_eq_false, if_false, this,
          List.set_cons_succ]

theorem pollNextEvent_first_transition_witness :
    pollNextEvent [samplePollDevice]
      = (some (deviceStateEvent samplePollDevice),
         [samplePollDevice].set 0
           (samplePollDevice.withLastConnected samplePollDevice.connected)) :=
  (pollNextEvent_first_transition [samplePollDevice] 0 samplePollDevice).2.1
    (by decide) (fun j dj hj _ => absurd hj (Nat.not_lt_zero j)) (by decide)

end Xrizer
